import Mathlib

/-!
Verification of the hangul block-composition library.

The definitions below are a shallow embedding of the repository's Rust
sources `src/chars.rs` and `src/compose.rs`.  Rust `&str` jamo constants
become `List Char`, `char as u32` becomes `Char.toNat`, mutation of the
composer becomes explicit state passing (each `push` returns the new
composer together with the returned disposition), and the panicking
`char::from_u32(..).unwrap()` inside `HangulBlock::to_char` is modelled by
an `Option Char` whose `none` stands for the abort.
-/

namespace Hangul

/-! Jamo sets, from `chars.rs`. -/

def CONSONANTS : List Char :=
  ['ㅂ', 'ㅈ', 'ㄷ', 'ㄱ', 'ㅅ', 'ㅁ', 'ㄴ', 'ㅇ', 'ㄹ', 'ㅎ', 'ㅋ', 'ㅌ', 'ㅊ', 'ㅍ']

def COMPOSITE_CONSONANTS : List Char :=
  ['ㄲ', 'ㄸ', 'ㅃ', 'ㅆ', 'ㅉ', 'ㄵ', 'ㄺ', 'ㅄ', 'ㄳ', 'ㄶ', 'ㄻ', 'ㄼ', 'ㄽ', 'ㄾ', 'ㄿ', 'ㅀ']

def INITIAL_COMPOSITE_CONSONANTS : List Char := ['ㄲ', 'ㄸ', 'ㅃ', 'ㅆ', 'ㅉ']

def FINAL_COMPOSITE_CONSONANTS : List Char :=
  ['ㄲ', 'ㄵ', 'ㄺ', 'ㅄ', 'ㅆ', 'ㄳ', 'ㄶ', 'ㄻ', 'ㄼ', 'ㄽ', 'ㄾ', 'ㄿ', 'ㅀ']

def VOWELS : List Char :=
  ['ㅛ', 'ㅕ', 'ㅑ', 'ㅐ', 'ㅔ', 'ㅒ', 'ㅖ', 'ㅗ', 'ㅓ', 'ㅏ', 'ㅣ', 'ㅠ', 'ㅜ', 'ㅡ']

def COMPOSITE_VOWELS : List Char := ['ㅘ', 'ㅙ', 'ㅚ', 'ㅝ', 'ㅞ', 'ㅟ', 'ㅢ']

/-! Jamo arithmetic constants, from `chars.rs`. -/

def S_BASE : Nat := 0xAC00
def L_BASE : Nat := 0x1100
def V_BASE : Nat := 0x1161
def T_BASE : Nat := 0x11A7
def V_COUNT : Nat := 21
def T_COUNT : Nat := 28
def N_COUNT : Nat := V_COUNT * T_COUNT

/-- Model of Rust's `std::char::from_u32`: `none` exactly when the code
point is a surrogate or above U+10FFFF. -/
def from_u32 (n : Nat) : Option Char :=
  if n < 0xD800 ∨ (0xDFFF < n ∧ n < 0x110000) then some (Char.ofNat n) else none

/-- Embeds `consonant_doubles` from `chars.rs`. -/
def consonant_doubles (c1 c2 : Char) : Option Char :=
  match c1, c2 with
  | 'ㄱ', 'ㄱ' => some 'ㄲ'
  | 'ㄷ', 'ㄷ' => some 'ㄸ'
  | 'ㅂ', 'ㅂ' => some 'ㅃ'
  | 'ㅅ', 'ㅅ' => some 'ㅆ'
  | 'ㅈ', 'ㅈ' => some 'ㅉ'
  | _, _ => none

/-- Embeds `composite_final` from `chars.rs`. -/
def composite_final (c1 c2 : Char) : Option Char :=
  match c1, c2 with
  | 'ㄱ', 'ㄱ' => some 'ㄲ'
  | 'ㄴ', 'ㅈ' => some 'ㄵ'
  | 'ㄹ', 'ㄱ' => some 'ㄺ'
  | 'ㅂ', 'ㅅ' => some 'ㅄ'
  | 'ㅅ', 'ㅅ' => some 'ㅆ'
  | 'ㄱ', 'ㅅ' => some 'ㄳ'
  | 'ㄴ', 'ㅎ' => some 'ㄶ'
  | 'ㄹ', 'ㅁ' => some 'ㄻ'
  | 'ㄹ', 'ㅂ' => some 'ㄼ'
  | 'ㄹ', 'ㅅ' => some 'ㄽ'
  | 'ㄹ', 'ㅌ' => some 'ㄾ'
  | 'ㄹ', 'ㅍ' => some 'ㄿ'
  | 'ㄹ', 'ㅎ' => some 'ㅀ'
  | _, _ => none

/-- Embeds `composite_vowel` from `chars.rs`. -/
def composite_vowel (v1 v2 : Char) : Option Char :=
  match v1, v2 with
  | 'ㅗ', 'ㅏ' => some 'ㅘ'
  | 'ㅗ', 'ㅐ' => some 'ㅙ'
  | 'ㅗ', 'ㅣ' => some 'ㅚ'
  | 'ㅜ', 'ㅓ' => some 'ㅝ'
  | 'ㅜ', 'ㅔ' => some 'ㅞ'
  | 'ㅜ', 'ㅣ' => some 'ㅟ'
  | 'ㅡ', 'ㅣ' => some 'ㅢ'
  | _, _ => none

inductive HangulLetter where
  | Consonant (c : Char)
  | CompositeConsonant (c : Char)
  | Vowel (c : Char)
  | CompositeVowel (c : Char)
  deriving DecidableEq, Repr

inductive Letter where
  | NonHangul (c : Char)
  | Hangul (l : HangulLetter)
  deriving DecidableEq, Repr

/-- Embeds `determine_hangul` from `chars.rs` (same if-chain order). -/
def determine_hangul (c : Char) : Letter :=
  if c ∈ CONSONANTS then
    Letter.Hangul (HangulLetter.Consonant c)
  else if c ∈ VOWELS then
    Letter.Hangul (HangulLetter.Vowel c)
  else if c ∈ COMPOSITE_CONSONANTS then
    Letter.Hangul (HangulLetter.CompositeConsonant c)
  else if c ∈ COMPOSITE_VOWELS then
    Letter.Hangul (HangulLetter.CompositeVowel c)
  else
    Letter.NonHangul c

/-- Embeds `is_valid_double_initial` from `chars.rs`. -/
def is_valid_double_initial (c : Char) : Bool :=
  INITIAL_COMPOSITE_CONSONANTS.contains c

/-- Embeds `is_valid_composite_final` from `chars.rs`. -/
def is_valid_composite_final (c : Char) : Bool :=
  FINAL_COMPOSITE_CONSONANTS.contains c

structure HangulBlock where
  initial : Char
  vowel : Char
  final_optional : Option Char
  deriving DecidableEq, Repr

/-- Embeds `HangulBlock::to_char` from `chars.rs`.  The Rust function ends
in `std::char::from_u32(S_BASE + s_index).unwrap()`; the `unwrap` panic is
modelled as `none`. -/
def HangulBlock.to_char (b : HangulBlock) : Option Char :=
  let initial_num := b.initial.toNat
  let vowel_num := b.vowel.toNat
  let final_num := match b.final_optional with
    | some c => c.toNat
    | none => 0
  let l_index := initial_num - L_BASE
  let v_index := vowel_num - V_BASE
  let t_index := if final_num == 0 then 0 else final_num - T_BASE
  let s_index := (l_index * N_COUNT) + (v_index * T_COUNT) + t_index
  from_u32 (S_BASE + s_index)

/-- Embeds `hangul_blocks_vec_to_string` from `chars.rs`; a panic inside
any `to_char` call is modelled as `none`. -/
def hangul_blocks_vec_to_string (blocks : List HangulBlock) : Option String :=
  (blocks.mapM HangulBlock.to_char).map List.asString

/-! The word composer, from `compose.rs`.  Rust methods mutating `self`
become functions returning the updated composer; a method also returning a
value returns it paired with the updated composer. -/

inductive BlockCompositionState where
  | ExpectingInitial
  | ExpectingDoubleInitialOrVowel (i : Char)
  | ExpectingVowel (i : Char)
  | ExpectingCompositeVowelOrFinal (i v : Char)
  | ExpectingFinal (i v : Char)
  | ExpectingCompositeFinalOrNextBlock (i v f : Char)
  | ExpectingNextBlock (i v f : Char)
  deriving DecidableEq, Repr

inductive WordCompositionState where
  | Composable
  | StartNewBlock (l : HangulLetter)
  | InvalidHangul (l : HangulLetter)
  | NonHangul (c : Char)
  deriving DecidableEq, Repr

structure HangulWordComposer where
  prev_blocks : List HangulBlock
  cur_block : BlockCompositionState
  deriving DecidableEq, Repr

namespace HangulWordComposer

def new_word : HangulWordComposer :=
  { prev_blocks := [], cur_block := .ExpectingInitial }

/-- Embeds `push_consonant` from `compose.rs`. -/
def push_consonant (w : HangulWordComposer) (c : Char) :
    HangulWordComposer × WordCompositionState :=
  match w.cur_block with
  | .ExpectingInitial =>
      ({ w with cur_block := .ExpectingDoubleInitialOrVowel c }, .Composable)
  | .ExpectingDoubleInitialOrVowel initial =>
      match consonant_doubles initial c with
      | some double =>
          ({ w with cur_block := .ExpectingVowel double }, .Composable)
      | none => (w, .InvalidHangul (.Consonant c))
  | .ExpectingVowel _ => (w, .InvalidHangul (.Consonant c))
  | .ExpectingCompositeVowelOrFinal i v =>
      ({ w with cur_block := .ExpectingCompositeFinalOrNextBlock i v c }, .Composable)
  | .ExpectingFinal i v =>
      ({ w with cur_block := .ExpectingCompositeFinalOrNextBlock i v c }, .Composable)
  | .ExpectingCompositeFinalOrNextBlock i v f =>
      match composite_final f c with
      | some composite =>
          ({ w with cur_block := .ExpectingNextBlock i v composite }, .Composable)
      | none => (w, .StartNewBlock (.Consonant c))
  | .ExpectingNextBlock _ _ _ => (w, .StartNewBlock (.Consonant c))

/-- Embeds `push_composite_consonant` from `compose.rs`. -/
def push_composite_consonant (w : HangulWordComposer) (c : Char) :
    HangulWordComposer × WordCompositionState :=
  match w.cur_block with
  | .ExpectingInitial =>
      if is_valid_double_initial c then
        ({ w with cur_block := .ExpectingVowel c }, .Composable)
      else (w, .InvalidHangul (.CompositeConsonant c))
  | .ExpectingCompositeVowelOrFinal i v =>
      if is_valid_composite_final c then
        ({ w with cur_block := .ExpectingNextBlock i v c }, .Composable)
      else if is_valid_double_initial c then
        (w, .StartNewBlock (.CompositeConsonant c))
      else (w, .InvalidHangul (.CompositeConsonant c))
  | .ExpectingFinal i v =>
      if is_valid_composite_final c then
        ({ w with cur_block := .ExpectingNextBlock i v c }, .Composable)
      else if is_valid_double_initial c then
        (w, .StartNewBlock (.CompositeConsonant c))
      else (w, .InvalidHangul (.CompositeConsonant c))
  | .ExpectingNextBlock _ _ _ =>
      if is_valid_double_initial c then
        (w, .StartNewBlock (.CompositeConsonant c))
      else (w, .InvalidHangul (.CompositeConsonant c))
  | _ => (w, .InvalidHangul (.CompositeConsonant c))

/-- Embeds `push_vowel` from `compose.rs`. -/
def push_vowel (w : HangulWordComposer) (c : Char) :
    HangulWordComposer × WordCompositionState :=
  match w.cur_block with
  | .ExpectingInitial => (w, .InvalidHangul (.Vowel c))
  | .ExpectingDoubleInitialOrVowel i =>
      ({ w with cur_block := .ExpectingCompositeVowelOrFinal i c }, .Composable)
  | .ExpectingVowel i =>
      ({ w with cur_block := .ExpectingCompositeVowelOrFinal i c }, .Composable)
  | .ExpectingCompositeVowelOrFinal i v =>
      match composite_vowel v c with
      | some composite =>
          ({ w with cur_block := .ExpectingFinal i composite }, .Composable)
      | none => (w, .InvalidHangul (.Vowel c))
  | .ExpectingFinal _ _ => (w, .InvalidHangul (.Vowel c))
  | .ExpectingCompositeFinalOrNextBlock _ _ _ => (w, .StartNewBlock (.Vowel c))
  | .ExpectingNextBlock _ _ _ => (w, .StartNewBlock (.Vowel c))

/-- Embeds `push_composite_vowel` from `compose.rs`. -/
def push_composite_vowel (w : HangulWordComposer) (c : Char) :
    HangulWordComposer × WordCompositionState :=
  match w.cur_block with
  | .ExpectingDoubleInitialOrVowel i =>
      ({ w with cur_block := .ExpectingFinal i c }, .Composable)
  | .ExpectingVowel i =>
      ({ w with cur_block := .ExpectingFinal i c }, .Composable)
  | .ExpectingCompositeFinalOrNextBlock _ _ _ =>
      (w, .StartNewBlock (.CompositeVowel c))
  | .ExpectingNextBlock _ _ _ => (w, .StartNewBlock (.CompositeVowel c))
  | _ => (w, .InvalidHangul (.CompositeVowel c))

/-- Embeds `push` from `compose.rs`. -/
def push (w : HangulWordComposer) (letter : HangulLetter) :
    HangulWordComposer × WordCompositionState :=
  match letter with
  | .Consonant c => w.push_consonant c
  | .CompositeConsonant c => w.push_composite_consonant c
  | .Vowel c => w.push_vowel c
  | .CompositeVowel c => w.push_composite_vowel c

/-- Embeds `push_char` from `compose.rs`. -/
def push_char (w : HangulWordComposer) (c : Char) :
    HangulWordComposer × WordCompositionState :=
  match determine_hangul c with
  | .Hangul hl => w.push hl
  | .NonHangul ch => (w, .NonHangul ch)

/-- Embeds `complete_current_block` from `compose.rs`; the error branch
performs no mutation, so the incoming composer is returned there. -/
def complete_current_block (w : HangulWordComposer) :
    HangulWordComposer × Except String Unit :=
  let ivf : Option Char × Option Char × Option Char :=
    match w.cur_block with
    | .ExpectingNextBlock i v f => (some i, some v, some f)
    | .ExpectingCompositeFinalOrNextBlock i v f => (some i, some v, some f)
    | .ExpectingFinal i v => (some i, some v, none)
    | .ExpectingCompositeVowelOrFinal i v => (some i, some v, none)
    | .ExpectingVowel i => (some i, none, none)
    | .ExpectingDoubleInitialOrVowel i => (some i, none, none)
    | .ExpectingInitial => (none, none, none)
  match ivf with
  | (some initial, some vowel, f) =>
      ({ w with prev_blocks := w.prev_blocks ++ [⟨initial, vowel, f⟩] }, .ok ())
  | _ => (w, .error "Cannot complete current block: incomplete block state")

/-- Embeds `start_new_block` from `compose.rs`; the `?` on
`complete_current_block` propagates the error, skipping the `cur_block`
assignment. -/
def start_new_block (w : HangulWordComposer) (letter : HangulLetter) :
    HangulWordComposer × Except String Unit :=
  match letter with
  | .Consonant c =>
      match w.complete_current_block with
      | (w1, .ok _) =>
          ({ w1 with cur_block := .ExpectingDoubleInitialOrVowel c }, .ok ())
      | (w1, .error e) => (w1, .error e)
  | .CompositeConsonant c =>
      if is_valid_double_initial c then
        match w.complete_current_block with
        | (w1, .ok _) => ({ w1 with cur_block := .ExpectingVowel c }, .ok ())
        | (w1, .error e) => (w1, .error e)
      else (w, .error "Cannot start new block with invalid initial consonant")
  | _ => (w, .error "Cannot start new block with non-consonant letter")

/-- Embeds `current_block_to_string` from `compose.rs`; the outer `none`
stands for the error/abort of `to_char`, the inner option for whether the
live state renders a character. -/
def current_block_to_string (w : HangulWordComposer) : Option (Option Char) :=
  match w.cur_block with
  | .ExpectingInitial => some none
  | .ExpectingDoubleInitialOrVowel i => some (some i)
  | .ExpectingVowel i => some (some i)
  | .ExpectingCompositeVowelOrFinal i v =>
      match (HangulBlock.mk i v none).to_char with
      | some block_char => some (some block_char)
      | none => none
  | .ExpectingFinal i v =>
      match (HangulBlock.mk i v none).to_char with
      | some block_char => some (some block_char)
      | none => none
  | .ExpectingCompositeFinalOrNextBlock i v f =>
      match (HangulBlock.mk i v (some f)).to_char with
      | some block_char => some (some block_char)
      | none => none
  | .ExpectingNextBlock i v f =>
      match (HangulBlock.mk i v (some f)).to_char with
      | some block_char => some (some block_char)
      | none => none

/-- Embeds `as_string` from `compose.rs`; `none` stands for the
abort/error coming out of `to_char`. -/
def as_string (w : HangulWordComposer) : Option String :=
  match hangul_blocks_vec_to_string w.prev_blocks, w.current_block_to_string with
  | some s, some (some c) => some (s.push c)
  | some s, some none => some s
  | _, _ => none

end HangulWordComposer

/-- Embeds the per-character driver of the repository's
`run_string_test_cases` (`compose.rs` tests): push the character and, on a
StartNewBlock disposition, call `start_new_block` with the returned
letter, ignoring its result value (`let _ = ...` in the source). -/
def push_char_and_restart (w : HangulWordComposer) (c : Char) :
    HangulWordComposer :=
  match w.push_char c with
  | (w1, .StartNewBlock l) => (w1.start_new_block l).1
  | (w1, _) => w1

/-- Runs the driver over a character list starting from a fresh composer. -/
def compose_string (cs : List Char) : HangulWordComposer :=
  cs.foldl push_char_and_restart HangulWordComposer.new_word

/-! Spec-side encoder, for comparison with `HangulBlock.to_char`. -/

/-- The standard 19-element initial jamo ordering table, in the program's
compatibility-jamo characters (spec §4.5). -/
def initial_ordering_table : List Char :=
  ['ㄱ', 'ㄲ', 'ㄴ', 'ㄷ', 'ㄸ', 'ㄹ', 'ㅁ', 'ㅂ', 'ㅃ', 'ㅅ',
   'ㅆ', 'ㅇ', 'ㅈ', 'ㅉ', 'ㅊ', 'ㅋ', 'ㅌ', 'ㅍ', 'ㅎ']

/-- The standard 21-element vowel jamo ordering table (spec §4.5). -/
def vowel_ordering_table : List Char :=
  ['ㅏ', 'ㅐ', 'ㅑ', 'ㅒ', 'ㅓ', 'ㅔ', 'ㅕ', 'ㅖ', 'ㅗ', 'ㅘ', 'ㅙ',
   'ㅚ', 'ㅛ', 'ㅜ', 'ㅝ', 'ㅞ', 'ㅟ', 'ㅠ', 'ㅡ', 'ㅢ', 'ㅣ']

/-- Positions 1..27 of the standard 28-element final jamo ordering table
(index 0 is the absent final) (spec §4.5). -/
def final_ordering_table : List Char :=
  ['ㄱ', 'ㄲ', 'ㄳ', 'ㄴ', 'ㄵ', 'ㄶ', 'ㄷ', 'ㄹ', 'ㄺ', 'ㄻ', 'ㄼ', 'ㄽ', 'ㄾ',
   'ㄿ', 'ㅀ', 'ㅁ', 'ㅂ', 'ㅄ', 'ㅅ', 'ㅆ', 'ㅇ', 'ㅈ', 'ㅊ', 'ㅋ', 'ㅌ', 'ㅍ', 'ㅎ']

/-- Modelled from the spec (§4.5 Encode), for comparison with the source's
`HangulBlock.to_char`: zero-based indices within the 19/21/28-element jamo
ordering tables, combined as initialIndex*21*28 + vowelIndex*28 +
finalIndex (0 when the final is absent), added to the syllable base. -/
def to_char_spec (b : HangulBlock) : Option Char :=
  match initial_ordering_table.indexOf? b.initial,
        vowel_ordering_table.indexOf? b.vowel,
        match b.final_optional with
        | none => some 0
        | some f => (final_ordering_table.indexOf? f).map (· + 1) with
  | some li, some vi, some ti => from_u32 (S_BASE + li * 21 * 28 + vi * 28 + ti)
  | _, _, _ => none

/-! Claim theorems. -/

/-- C1: the spec (and the repository's own `input_then_as_string` test)
claims that pushing ㅇㅏㄴㄴㅕㅇㅎㅏㅅㅔㅇㅛ one at a time, calling
`start_new_block` on every StartNewBlock disposition, then `as_string`,
yields "안녕하세요".  Evaluating the code at that input: the ㅔ is dropped
(its StartNewBlock seed is the vowel ㅔ, which `start_new_block` rejects),
the finished blocks end up as (ㅇ,ㅏ,ㄴ), (ㄴ,ㅕ,ㅇ), (ㅎ,ㅏ,ㅅ) with live
state (ㅇ,ㅛ), and `as_string` aborts inside `to_char` (modelled `none`)
because `from_u32` receives a code point far above U+10FFFF; it never
yields "안녕하세요". -/
theorem C1_annyeong_scenario_fails :
    compose_string ['ㅇ', 'ㅏ', 'ㄴ', 'ㄴ', 'ㅕ', 'ㅇ', 'ㅎ', 'ㅏ', 'ㅅ', 'ㅔ', 'ㅇ', 'ㅛ'] =
      ⟨[⟨'ㅇ', 'ㅏ', some 'ㄴ'⟩, ⟨'ㄴ', 'ㅕ', some 'ㅇ'⟩, ⟨'ㅎ', 'ㅏ', some 'ㅅ'⟩],
        .ExpectingCompositeVowelOrFinal 'ㅇ' 'ㅛ'⟩ ∧
    (compose_string ['ㅇ', 'ㅏ', 'ㄴ', 'ㄴ', 'ㅕ', 'ㅇ', 'ㅎ', 'ㅏ', 'ㅅ', 'ㅔ', 'ㅇ', 'ㅛ']).as_string =
      none := by
  decide

/-- C2: the claim says that for components drawn from the program's jamo
classes, `to_char` returns the syllable at 0xAC00 plus the table-index
combination.  Evaluating the code at the failing input (ㄱ, ㅏ, no final),
whose components are members of the program's classes: the code subtracts
the conjoining-jamo bases from compatibility-jamo code points, producing
0xAC00 + 8241*588 + 8174*28 + 0 = 5118612 > 0x10FFFF, so `from_u32` fails
(the `unwrap` panics, modelled `none`), while the spec's table-index
formula (`to_char_spec`) gives 가 (U+AC00). -/
theorem C2_to_char_wrong_bases :
    'ㄱ' ∈ CONSONANTS ∧ 'ㅏ' ∈ VOWELS ∧
    (HangulBlock.mk 'ㄱ' 'ㅏ' none).to_char = none ∧
    to_char_spec (HangulBlock.mk 'ㄱ' 'ㅏ' none) = some '가' := by
  decide

/-- C3: the claim says `to_char` never aborts on blocks produced by the
state machine, so `as_string` never aborts on any reachable composer
state.  Evaluating the code at the failing input: pushing ㄱ then ㅏ from
a fresh composer reaches live state ExpectingCompositeVowelOrFinal(ㄱ, ㅏ),
and `as_string` there calls `to_char` on (ㄱ, ㅏ, no final), whose
`from_u32` receives 5118612 > 0x10FFFF and fails, so the `unwrap` panics
(modelled `none`). -/
theorem C3_as_string_aborts_on_reachable_state :
    compose_string ['ㄱ', 'ㅏ'] =
      ⟨[], .ExpectingCompositeVowelOrFinal 'ㄱ' 'ㅏ'⟩ ∧
    (compose_string ['ㄱ', 'ㅏ']).as_string = none := by
  decide

/-- C4 counterexample: the claim says every consonant, plain or compound,
pushed on ExpectingNextBlock yields StartNewBlock and never InvalidHangul.
But the compound consonant ㄳ (a member of the program's compound-consonant
class) pushed on ExpectingNextBlock(ㅇ, ㅣ, ㅆ) yields InvalidHangul(ㄳ),
not StartNewBlock(ㄳ), because ㄳ is not a legal block-initial. -/
theorem C4_counterexample :
    'ㄳ' ∈ COMPOSITE_CONSONANTS ∧
    (⟨[], .ExpectingNextBlock 'ㅇ' 'ㅣ' 'ㅆ'⟩ : HangulWordComposer).push
        (.CompositeConsonant 'ㄳ') =
      (⟨[], .ExpectingNextBlock 'ㅇ' 'ㅣ' 'ㅆ'⟩,
        .InvalidHangul (.CompositeConsonant 'ㄳ')) ∧
    WordCompositionState.InvalidHangul (.CompositeConsonant 'ㄳ') ≠
      WordCompositionState.StartNewBlock (.CompositeConsonant 'ㄳ') := by
  decide

/-- C4 amended: on live state ExpectingNextBlock(i, v, f), a plain
consonant always yields StartNewBlock with the composer unchanged; a
compound consonant yields StartNewBlock when it is a legal block-initial
and InvalidHangul otherwise, with the composer unchanged in every case. -/
theorem C4_expecting_next_block_consonants (w : HangulWordComposer)
    (i v f c : Char) (h : w.cur_block = .ExpectingNextBlock i v f) :
    w.push_consonant c = (w, .StartNewBlock (.Consonant c)) ∧
    w.push_composite_consonant c =
      (w, if is_valid_double_initial c then
            .StartNewBlock (.CompositeConsonant c)
          else .InvalidHangul (.CompositeConsonant c)) := by
  obtain ⟨pb, cb⟩ := w
  simp only at h
  subst h
  refine ⟨rfl, ?_⟩
  by_cases hI : is_valid_double_initial c <;>
    simp [HangulWordComposer.push_composite_consonant, hI]

/-- C4 amended, witness at live state ExpectingNextBlock(ㅇ, ㅣ, ㅆ) with
plain consonant ㅅ and compound consonant ㄲ. -/
theorem C4_expecting_next_block_consonants_witness :
    (⟨[], .ExpectingNextBlock 'ㅇ' 'ㅣ' 'ㅆ'⟩ : HangulWordComposer).push_consonant 'ㅅ' =
      (⟨[], .ExpectingNextBlock 'ㅇ' 'ㅣ' 'ㅆ'⟩, .StartNewBlock (.Consonant 'ㅅ')) ∧
    (⟨[], .ExpectingNextBlock 'ㅇ' 'ㅣ' 'ㅆ'⟩ : HangulWordComposer).push_composite_consonant 'ㄲ' =
      (⟨[], .ExpectingNextBlock 'ㅇ' 'ㅣ' 'ㅆ'⟩,
        .StartNewBlock (.CompositeConsonant 'ㄲ')) := by
  have h := C4_expecting_next_block_consonants
    ⟨[], .ExpectingNextBlock 'ㅇ' 'ㅣ' 'ㅆ'⟩ 'ㅇ' 'ㅣ' 'ㅆ' 'ㅅ' rfl
  have h2 := C4_expecting_next_block_consonants
    ⟨[], .ExpectingNextBlock 'ㅇ' 'ㅣ' 'ㅆ'⟩ 'ㅇ' 'ㅣ' 'ㅆ' 'ㄲ' rfl
  exact ⟨h.1, by simpa using h2.2⟩

/-- C5: pushing a compound consonant c on ExpectingCompositeVowelOrFinal(i, v)
or ExpectingFinal(i, v): when c is a legal block-final it is accepted as
the block's final (Composable, state advances to hold (i, v, c)); else
when c is a legal block-initial the result is StartNewBlock(c); else
InvalidHangul(c).  Moreover pushing ㅃ, ㅣ, ㄳ from a fresh composer ends
Composable in live state ExpectingNextBlock(ㅃ, ㅣ, ㄳ) with no finished
blocks. -/
theorem C5_composite_consonant_as_final (w : HangulWordComposer)
    (i v c : Char)
    (h : w.cur_block = .ExpectingCompositeVowelOrFinal i v ∨
         w.cur_block = .ExpectingFinal i v) :
    w.push_composite_consonant c =
      (if is_valid_composite_final c then
        ({ w with cur_block := .ExpectingNextBlock i v c }, .Composable)
      else if is_valid_double_initial c then
        (w, .StartNewBlock (.CompositeConsonant c))
      else (w, .InvalidHangul (.CompositeConsonant c))) ∧
    (((HangulWordComposer.new_word.push (.CompositeConsonant 'ㅃ')).1.push
        (.Vowel 'ㅣ')).1.push (.CompositeConsonant 'ㄳ') =
      (⟨[], .ExpectingNextBlock 'ㅃ' 'ㅣ' 'ㄳ'⟩, .Composable)) := by
  refine ⟨?_, by decide⟩
  obtain ⟨pb, cb⟩ := w
  rcases h with h | h <;> simp only at h <;> subst h <;>
    by_cases hF : is_valid_composite_final c <;>
    by_cases hI : is_valid_double_initial c <;>
    simp [HangulWordComposer.push_composite_consonant, hF, hI]

/-- C5 witness at live state ExpectingCompositeVowelOrFinal(ㅃ, ㅣ) with
the legal final ㄳ. -/
theorem C5_composite_consonant_as_final_witness :
    (⟨[], .ExpectingCompositeVowelOrFinal 'ㅃ' 'ㅣ'⟩ : HangulWordComposer).push_composite_consonant 'ㄳ' =
      (⟨[], .ExpectingNextBlock 'ㅃ' 'ㅣ' 'ㄳ'⟩, .Composable) := by
  have h := (C5_composite_consonant_as_final
    ⟨[], .ExpectingCompositeVowelOrFinal 'ㅃ' 'ㅣ'⟩ 'ㅃ' 'ㅣ' 'ㄳ' (Or.inl rfl)).1
  simpa using h

/-- C6: pushing a plain consonant c on ExpectingDoubleInitialOrVowel(i):
when the double-consonant fusion of (i, c) is defined the state advances
to ExpectingVowel(fused) with Composable; when undefined the result is
InvalidHangul(c) with the composer unchanged.  Moreover pushing ㄱ then ㄹ
from a fresh composer yields InvalidHangul(ㄹ) with the live state still
ExpectingDoubleInitialOrVowel(ㄱ). -/
theorem C6_double_initial_fusion (w : HangulWordComposer) (i c : Char)
    (h : w.cur_block = .ExpectingDoubleInitialOrVowel i) :
    (w.push_consonant c =
      match consonant_doubles i c with
      | some d => ({ w with cur_block := .ExpectingVowel d }, .Composable)
      | none => (w, .InvalidHangul (.Consonant c))) ∧
    ((HangulWordComposer.new_word.push (.Consonant 'ㄱ')).1.push (.Consonant 'ㄹ') =
      (⟨[], .ExpectingDoubleInitialOrVowel 'ㄱ'⟩, .InvalidHangul (.Consonant 'ㄹ'))) := by
  refine ⟨?_, by decide⟩
  obtain ⟨pb, cb⟩ := w
  simp only at h
  subst h
  rcases hd : consonant_doubles i c with _ | d <;>
    simp [HangulWordComposer.push_consonant, hd]

/-- C6 witness at live state ExpectingDoubleInitialOrVowel(ㄱ) with the
fusing consonant ㄱ and the non-fusing consonant ㄹ. -/
theorem C6_double_initial_fusion_witness :
    (⟨[], .ExpectingDoubleInitialOrVowel 'ㄱ'⟩ : HangulWordComposer).push_consonant 'ㄱ' =
      (⟨[], .ExpectingVowel 'ㄲ'⟩, .Composable) ∧
    (⟨[], .ExpectingDoubleInitialOrVowel 'ㄱ'⟩ : HangulWordComposer).push_consonant 'ㄹ' =
      (⟨[], .ExpectingDoubleInitialOrVowel 'ㄱ'⟩, .InvalidHangul (.Consonant 'ㄹ')) := by
  have h := (C6_double_initial_fusion
    ⟨[], .ExpectingDoubleInitialOrVowel 'ㄱ'⟩ 'ㄱ' 'ㄱ' rfl).1
  have h2 := (C6_double_initial_fusion
    ⟨[], .ExpectingDoubleInitialOrVowel 'ㄱ'⟩ 'ㄱ' 'ㄹ' rfl).1
  exact ⟨by simpa using h, by simpa using h2⟩

/-- Seed letters accepted by `start_new_block`: a plain consonant, or a
compound consonant that is a legal block-initial. -/
def seed_ok : HangulLetter → Bool
  | .Consonant _ => true
  | .CompositeConsonant c => is_valid_double_initial c
  | .Vowel _ => false
  | .CompositeVowel _ => false

/-- The (initial, vowel, optional final) a live state has committed, when
it has committed both an initial and a vowel. -/
def committed : BlockCompositionState → Option (Char × Char × Option Char)
  | .ExpectingNextBlock i v f => some (i, v, some f)
  | .ExpectingCompositeFinalOrNextBlock i v f => some (i, v, some f)
  | .ExpectingFinal i v => some (i, v, none)
  | .ExpectingCompositeVowelOrFinal i v => some (i, v, none)
  | _ => none

/-- C7: `start_new_block(letter)` errors exactly when the seed letter
cannot legally begin a block (a vowel, a compound vowel, or a compound
consonant that is not a legal block-initial) or the live state has not
committed both an initial and a vowel; otherwise it succeeds, appends the
block built from the committed (initial, vowel, optional final) to the
finished-block sequence, and re-seeds the live state with the letter
(ExpectingDoubleInitialOrVowel for a plain consonant, ExpectingVowel for a
legal-initial compound consonant). -/
theorem C7_start_new_block_contract (w : HangulWordComposer)
    (l : HangulLetter) :
    ((∃ e, (w.start_new_block l).2 = .error e) ↔
      (seed_ok l = false ∨ committed w.cur_block = none)) ∧
    (∀ i v f, committed w.cur_block = some (i, v, f) →
      (∀ c, l = .Consonant c →
        w.start_new_block l =
          (⟨w.prev_blocks ++ [⟨i, v, f⟩], .ExpectingDoubleInitialOrVowel c⟩, .ok ())) ∧
      (∀ c, l = .CompositeConsonant c → is_valid_double_initial c = true →
        w.start_new_block l =
          (⟨w.prev_blocks ++ [⟨i, v, f⟩], .ExpectingVowel c⟩, .ok ()))) := by
  obtain ⟨pb, cb⟩ := w
  cases l with
  | Consonant c =>
      cases cb <;>
        simp [HangulWordComposer.start_new_block,
          HangulWordComposer.complete_current_block, seed_ok, committed]
  | CompositeConsonant c =>
      by_cases hI : is_valid_double_initial c <;>
        cases cb <;>
        simp [HangulWordComposer.start_new_block,
          HangulWordComposer.complete_current_block, seed_ok, committed, hI]
  | Vowel c =>
      cases cb <;>
        simp [HangulWordComposer.start_new_block, seed_ok, committed]
  | CompositeVowel c =>
      cases cb <;>
        simp [HangulWordComposer.start_new_block, seed_ok, committed]

/-- C7 witness: from live state ExpectingCompositeVowelOrFinal(ㄱ, ㅏ), a
plain-consonant seed ㅇ succeeds, appending block (ㄱ, ㅏ, no final) and
re-seeding with ㅇ. -/
theorem C7_start_new_block_contract_witness :
    (⟨[], .ExpectingCompositeVowelOrFinal 'ㄱ' 'ㅏ'⟩ : HangulWordComposer).start_new_block
        (.Consonant 'ㅇ') =
      (⟨[⟨'ㄱ', 'ㅏ', none⟩], .ExpectingDoubleInitialOrVowel 'ㅇ'⟩, .ok ()) := by
  have h := ((C7_start_new_block_contract
    ⟨[], .ExpectingCompositeVowelOrFinal 'ㄱ' 'ㅏ'⟩ (.Consonant 'ㅇ')).2
      'ㄱ' 'ㅏ' none rfl).1 'ㅇ' rfl
  simpa using h

/-- Every push either leaves the composer untouched or reports
Composable: mutation happens only on accepted letters. -/
theorem push_mutates_only_composable (w : HangulWordComposer)
    (l : HangulLetter) :
    (w.push l).1 = w ∨ (w.push l).2 = .Composable := by
  obtain ⟨pb, cb⟩ := w
  cases l <;> cases cb <;>
    simp only [HangulWordComposer.push, HangulWordComposer.push_consonant,
      HangulWordComposer.push_composite_consonant,
      HangulWordComposer.push_vowel,
      HangulWordComposer.push_composite_vowel] <;>
    (repeat' split) <;> simp

/-- C8: whenever `push` returns InvalidHangul or `push_char` returns
NonHangul (or InvalidHangul), the composer — both the live
BlockCompositionState and the finished-block sequence — is exactly as it
was before the call. -/
theorem C8_rejections_do_not_mutate (w : HangulWordComposer)
    (l : HangulLetter) (c : Char) :
    (∀ hl, (w.push l).2 = .InvalidHangul hl → (w.push l).1 = w) ∧
    (∀ ch, (w.push_char c).2 = .NonHangul ch → (w.push_char c).1 = w) ∧
    (∀ hl, (w.push_char c).2 = .InvalidHangul hl → (w.push_char c).1 = w) := by
  have key : ∀ (l : HangulLetter) (hl : HangulLetter),
      (w.push l).2 = .InvalidHangul hl → (w.push l).1 = w := by
    intro l hl h
    rcases push_mutates_only_composable w l with h1 | h1
    · exact h1
    · rw [h] at h1; cases h1
  refine ⟨key l, ?_, ?_⟩
  · intro ch h
    rcases hdc : determine_hangul c with ch2 | hl2 <;>
      simp only [HangulWordComposer.push_char, hdc] at h ⊢
    rcases push_mutates_only_composable w hl2 with h1 | h1
    · exact h1
    · rw [h] at h1; cases h1
  · intro hl h
    rcases hdc : determine_hangul c with ch2 | hl2 <;>
      simp only [HangulWordComposer.push_char, hdc] at h ⊢
    exact key hl2 hl h

/-- C8 witness: pushing the vowel ㅏ on a fresh composer returns
InvalidHangul and leaves the composer unchanged; pushing the non-jamo
character A returns NonHangul and leaves the composer unchanged. -/
theorem C8_rejections_do_not_mutate_witness :
    (HangulWordComposer.new_word.push (.Vowel 'ㅏ')).1 =
      HangulWordComposer.new_word ∧
    (HangulWordComposer.new_word.push_char 'A').1 =
      HangulWordComposer.new_word := by
  have h := C8_rejections_do_not_mutate HangulWordComposer.new_word
    (.Vowel 'ㅏ') 'A'
  exact ⟨h.1 (.Vowel 'ㅏ') rfl, h.2.1 'A' rfl⟩

/-- C9: the four static jamo sets are pairwise disjoint; a character in
one of them is classified by `determine_hangul` as the corresponding
HangulLetter variant wrapping that character; every character in none of
them is returned as NonHangul. -/
theorem C9_determine_hangul_total_classification (c : Char) :
    (∀ x ∈ CONSONANTS,
      x ∉ COMPOSITE_CONSONANTS ∧ x ∉ VOWELS ∧ x ∉ COMPOSITE_VOWELS) ∧
    (∀ x ∈ COMPOSITE_CONSONANTS, x ∉ VOWELS ∧ x ∉ COMPOSITE_VOWELS) ∧
    (∀ x ∈ VOWELS, x ∉ COMPOSITE_VOWELS) ∧
    (c ∈ CONSONANTS → determine_hangul c = .Hangul (.Consonant c)) ∧
    (c ∈ COMPOSITE_CONSONANTS →
      determine_hangul c = .Hangul (.CompositeConsonant c)) ∧
    (c ∈ VOWELS → determine_hangul c = .Hangul (.Vowel c)) ∧
    (c ∈ COMPOSITE_VOWELS →
      determine_hangul c = .Hangul (.CompositeVowel c)) ∧
    (c ∉ CONSONANTS → c ∉ COMPOSITE_CONSONANTS → c ∉ VOWELS →
      c ∉ COMPOSITE_VOWELS → determine_hangul c = .NonHangul c) := by
  have d1 : ∀ x ∈ CONSONANTS,
      x ∉ COMPOSITE_CONSONANTS ∧ x ∉ VOWELS ∧ x ∉ COMPOSITE_VOWELS := by decide
  have d2 : ∀ x ∈ COMPOSITE_CONSONANTS,
      x ∉ VOWELS ∧ x ∉ COMPOSITE_VOWELS := by decide
  have d3 : ∀ x ∈ VOWELS, x ∉ COMPOSITE_VOWELS := by decide
  refine ⟨d1, d2, d3, ?_, ?_, ?_, ?_, ?_⟩
  · intro h
    simp [determine_hangul, h]
  · intro h
    have h1 : c ∉ CONSONANTS := fun hc => (d1 c hc).1 h
    have h2 : c ∉ VOWELS := fun hv => (d2 c h).1 hv
    simp [determine_hangul, h, h1, h2]
  · intro h
    have h1 : c ∉ CONSONANTS := fun hc => (d1 c hc).2.1 h
    simp [determine_hangul, h, h1]
  · intro h
    have h1 : c ∉ CONSONANTS := fun hc => (d1 c hc).2.2 h
    have h2 : c ∉ VOWELS := fun hv => d3 c hv h
    have h3 : c ∉ COMPOSITE_CONSONANTS := fun hcc => (d2 c hcc).2 h
    simp [determine_hangul, h, h1, h2, h3]
  · intro h1 h2 h3 h4
    simp [determine_hangul, h1, h2, h3, h4]

/-- C9 witness: ㄱ is classified Consonant, ㅘ CompositeVowel, the Latin
letter A and the archaic jamo ᅀ are NonHangul. -/
theorem C9_determine_hangul_total_classification_witness :
    determine_hangul 'ㄱ' = .Hangul (.Consonant 'ㄱ') ∧
    determine_hangul 'ㅘ' = .Hangul (.CompositeVowel 'ㅘ') ∧
    determine_hangul 'A' = .NonHangul 'A' ∧
    determine_hangul 'ᅀ' = .NonHangul 'ᅀ' :=
  ⟨(C9_determine_hangul_total_classification 'ㄱ').2.2.2.1 (by decide),
   (C9_determine_hangul_total_classification 'ㅘ').2.2.2.2.2.2.1 (by decide),
   (C9_determine_hangul_total_classification 'A').2.2.2.2.2.2.2
     (by decide) (by decide) (by decide) (by decide),
   (C9_determine_hangul_total_classification 'ᅀ').2.2.2.2.2.2.2
     (by decide) (by decide) (by decide) (by decide)⟩

/-- C10: `start_new_block` is atomic on failure: whenever it returns an
error — invalid seed or incomplete block — the composer (live state and
finished-block sequence) is unchanged, and in particular no partial block
was appended. -/
theorem C10_start_new_block_atomic_on_failure (w : HangulWordComposer)
    (l : HangulLetter) (e : String)
    (h : (w.start_new_block l).2 = .error e) :
    (w.start_new_block l).1 = w := by
  obtain ⟨pb, cb⟩ := w
  cases l with
  | Consonant c =>
      cases cb <;>
        simp_all [HangulWordComposer.start_new_block,
          HangulWordComposer.complete_current_block]
  | CompositeConsonant c =>
      by_cases hI : is_valid_double_initial c <;>
        cases cb <;>
        simp_all [HangulWordComposer.start_new_block,
          HangulWordComposer.complete_current_block, hI]
  | Vowel c => rfl
  | CompositeVowel c => rfl

/-- C10 witness: on a fresh composer (no initial, no vowel), a vowel seed
errors and a consonant seed errors (incomplete block); both leave the
composer unchanged. -/
theorem C10_start_new_block_atomic_on_failure_witness :
    (HangulWordComposer.new_word.start_new_block (.Vowel 'ㅏ')).1 =
      HangulWordComposer.new_word ∧
    (HangulWordComposer.new_word.start_new_block (.Consonant 'ㄱ')).1 =
      HangulWordComposer.new_word :=
  ⟨C10_start_new_block_atomic_on_failure HangulWordComposer.new_word
      (.Vowel 'ㅏ') "Cannot start new block with non-consonant letter" rfl,
   C10_start_new_block_atomic_on_failure HangulWordComposer.new_word
      (.Consonant 'ㄱ')
      "Cannot complete current block: incomplete block state" rfl⟩

end Hangul
